import Mathlib

/- Shallow embedding of the command-line frontend of msdf-atlas-gen
   (src/msdf-atlas-gen/main.cpp).  C++ unsigned 64-bit arithmetic is
   modelled as Nat with an explicit reduction modulo 2 ^ 64 after every
   operation; C++ int values are modelled as Int; C++ double values that
   the claims depend on are modelled as rationals. -/

namespace MsdfAtlasGen

/-- Reduction of a natural number to the unsigned 64-bit machine range,
applied after every C++ unsigned long long operation. -/
def u64 (n : Nat) : Nat := n % 2 ^ 64

/-- The constant LCG_MULTIPLIER, main.cpp line 36. -/
def LCG_MULTIPLIER : Nat := 6364136223846793005

/-- The constant LCG_INCREMENT, main.cpp line 37. -/
def LCG_INCREMENT : Nat := 1442695040888963407

/-- The constant DEFAULT_SIZE, main.cpp line 30. -/
def DEFAULT_SIZE : ℚ := 32

/-- The constant DEFAULT_PIXEL_RANGE, main.cpp line 33. -/
def DEFAULT_PIXEL_RANGE : ℚ := 2

/-- Per-glyph seed of the expensive edge-coloring path, main.cpp line 1417:
the C++ expression (LCG_MULTIPLIER*(config.coloringSeed XOR i)+LCG_INCREMENT)
multiplied by the double negation of config.coloringSeed, every operation
performed in unsigned 64-bit arithmetic.  The double negation maps a zero
seed to 0 and any nonzero seed to 1. -/
def glyphSeed (coloringSeed i : Nat) : Nat :=
  u64 (u64 (u64 (LCG_MULTIPLIER * (coloringSeed ^^^ i)) + LCG_INCREMENT) *
    (if coloringSeed = 0 then 0 else 1))

/-- Seed sequence of the cheap edge-coloring path, main.cpp lines 1422 to
1426: a single running seed starts at the global coloring seed and is
multiplied by LCG_MULTIPLIER before each glyph; the element at position k of
the resulting list is the seed handed to the glyph at position k, in glyph
order (the source path is a plain sequential loop over the glyph vector). -/
def cheapSeedsFrom (s : Nat) : Nat → List Nat
  | 0 => []
  | n + 1 => u64 (s * LCG_MULTIPLIER) :: cheapSeedsFrom (u64 (s * LCG_MULTIPLIER)) n

/-- Seeds received by n glyphs in the cheap coloring path when the global
coloring seed is coloringSeed. -/
def cheapColoringSeeds (coloringSeed n : Nat) : List Nat :=
  cheapSeedsFrom coloringSeed n

/-- The ImageType enumeration of the atlas generator. -/
inductive ImageType where
  | HARD_MASK : ImageType
  | SOFT_MASK : ImageType
  | SDF : ImageType
  | PSDF : ImageType
  | MSDF : ImageType
  | MTSDF : ImageType
deriving DecidableEq

/-- The ImageFormat enumeration of the atlas generator. -/
inductive ImageFormat where
  | UNSPECIFIED : ImageFormat
  | PNG : ImageFormat
  | BMP : ImageFormat
  | TIFF : ImageFormat
  | RGBA : ImageFormat
  | FL32 : ImageFormat
  | TEXT : ImageFormat
  | TEXT_FLOAT : ImageFormat
  | BINARY : ImageFormat
  | BINARY_FLOAT : ImageFormat
  | BINARY_FLOAT_BE : ImageFormat
deriving DecidableEq

/-- The YDirection enumeration. -/
inductive YDirection where
  | BOTTOM_UP : YDirection
  | TOP_DOWN : YDirection
deriving DecidableEq

/-- The Units enumeration of main.cpp lines 331 to 338: a quantity is
expressed either in ems or in output pixels. -/
inductive CliUnits where
  | EMS : CliUnits
  | PIXELS : CliUnits
deriving DecidableEq

/-- The msdfgen Range value used for distance ranges: a lower and an upper
bound in the chosen unit.  The one-argument C++ constructor builds the
symmetric range (-w/2, w/2) from a width w. -/
structure DistRange where
  lower : ℚ
  upper : ℚ
deriving DecidableEq

/-- The one-argument msdfgen Range constructor: a symmetric range of the
given total width. -/
def DistRange.symmetric (w : ℚ) : DistRange :=
  { lower := -(w / 2), upper := w / 2 }

/-- The error-correction operation mode of msdfgen ErrorCorrectionConfig. -/
inductive ECMode where
  | DISABLED : ECMode
  | INDISCRIMINATE : ECMode
  | EDGE_PRIORITY : ECMode
  | EDGE_ONLY : ECMode
deriving DecidableEq

/-- The distance-check mode of msdfgen ErrorCorrectionConfig. -/
inductive DistanceCheckMode where
  | DO_NOT_CHECK_DISTANCE : DistanceCheckMode
  | CHECK_DISTANCE_AT_EDGE : DistanceCheckMode
  | ALWAYS_CHECK_DISTANCE : DistanceCheckMode
deriving DecidableEq

/-- The msdfgen ErrorCorrectionConfig, restricted to the fields main.cpp
reads or writes. -/
structure ErrorCorrectionConfig where
  mode : ECMode
  distanceCheckMode : DistanceCheckMode
  minDeviationRatio : ℚ
  minImproveRatio : ℚ
deriving DecidableEq

/-- The GeneratorAttributes value of the configuration, with the nested
msdfgen generator config flattened to the fields main.cpp touches
(config.overlapSupport, config.errorCorrection, scanlinePass). -/
structure GeneratorAttributes where
  overlapSupport : Bool
  scanlinePass : Bool
  errorCorrection : ErrorCorrectionConfig
deriving DecidableEq

/-- The edge coloring function pointer of the Configuration, one of the
three msdfgen coloring heuristics selectable on the command line. -/
inductive EdgeColoringFunction where
  | edgeColoringSimple : EdgeColoringFunction
  | edgeColoringInkTrap : EdgeColoringFunction
  | edgeColoringByDistance : EdgeColoringFunction
deriving DecidableEq

/-- The grid sub-structure of Configuration, main.cpp lines 360 to 364. -/
structure GridSettings where
  cellWidth : Int
  cellHeight : Int
  cols : Int
  rows : Int
  fixedOriginX : Bool
  fixedOriginY : Bool
deriving DecidableEq

/-- The Configuration structure of main.cpp lines 350 to 378, with the
output filename pointers omitted (they are only read by the export sinks)
and the edge coloring function pointer replaced by the enumeration of the
three selectable heuristics. -/
structure Configuration where
  imageType : ImageType
  imageFormat : ImageFormat
  yDirection : YDirection
  width : Int
  height : Int
  emSize : ℚ
  pxRange : DistRange
  angleThreshold : ℚ
  miterLimit : ℚ
  pxAlignOriginX : Bool
  pxAlignOriginY : Bool
  grid : GridSettings
  edgeColoring : EdgeColoringFunction
  expensiveColoring : Bool
  coloringSeed : Nat
  generatorAttributes : GeneratorAttributes
  preprocessGeometry : Bool
  kerning : Bool
  threadCount : Int
deriving DecidableEq

/-- The range fixup of main.cpp lines 1037 to 1043: a hard or soft mask
forces the range to exactly 1 pixel; otherwise an empty range falls back
to the default pixel range. -/
def fixupRange (imageType : ImageType) (rangeUnits : CliUnits)
    (rangeValue : DistRange) : CliUnits × DistRange :=
  if imageType = ImageType.HARD_MASK ∨ imageType = ImageType.SOFT_MASK then
    (CliUnits.PIXELS, DistRange.symmetric 1)
  else if rangeValue.lower = rangeValue.upper then
    (CliUnits.PIXELS, DistRange.symmetric DEFAULT_PIXEL_RANGE)
  else
    (rangeUnits, rangeValue)

/-- The em-size fixup of main.cpp lines 1031 to 1036: the fixed em size, if
larger, overrides the minimum em size; if neither fixed atlas dimensions nor
fixed grid cell dimensions nor a positive em size are given, the minimum em
size falls back to DEFAULT_SIZE.  The Bool records whether the fallback
notice was printed. -/
def resolveMinEmSize (emSize minEmSize : ℚ)
    (fixedWidth fixedHeight fixedCellWidth fixedCellHeight : Int) : ℚ × Bool :=
  let m := if minEmSize < emSize then emSize else minEmSize
  if ¬(0 < fixedWidth ∧ 0 < fixedHeight) ∧
      ¬(0 < fixedCellWidth ∧ 0 < fixedCellHeight) ∧ ¬(0 < m) then
    (DEFAULT_SIZE, true)
  else
    (m, false)

/-- The thread count fixup of main.cpp lines 1046 to 1047: a non-positive
configured thread count becomes the maximum of the detected hardware
concurrency and 1. -/
def resolveThreadCount (threadCount : Int) (hardwareConcurrency : Nat) : Int :=
  if threadCount ≤ 0 then max (hardwareConcurrency : Int) 1 else threadCount

/-- The packing spacing resolution of main.cpp lines 1134 to 1143: for the
SDF, MSDF and MTSDF image types the spacing is the user value when positive
and 0 otherwise; for every other image type it is the internal sentinel -1.
packingSpacing is -1 when the -spacing option was absent and the parsed
non-negative value otherwise. -/
def resolveSpacing (imageType : ImageType) (packingSpacing : Int) : Int :=
  if imageType = ImageType.SDF ∨ imageType = ImageType.MSDF ∨
      imageType = ImageType.MTSDF then
    if 0 < packingSpacing then packingSpacing else 0
  else
    -1

/-- The fallback mode names of main.cpp lines 1051 to 1056. -/
def fallbackModeName : ECMode → String
  | ECMode.DISABLED => "disabled"
  | ECMode.INDISCRIMINATE => "distance-fast"
  | ECMode.EDGE_PRIORITY => "auto-fast"
  | ECMode.EDGE_ONLY => "edge-fast"

/-- The scanline-pass fixup of main.cpp lines 1048 to 1060: when the
scanline pass is enabled, the distance-check mode is forced to
DO_NOT_CHECK_DISTANCE, and a warning naming the fallback mode is printed
exactly when the user selected an error-correction mode explicitly and its
distance-check mode was not already DO_NOT_CHECK_DISTANCE.  The returned
Option String is the fallback mode name of the printed warning, none when
no warning is printed. -/
def scanlineFixup (scanlinePass explicitErrorCorrectionMode : Bool)
    (ec : ErrorCorrectionConfig) : ErrorCorrectionConfig × Option String :=
  if scanlinePass then
    ({ ec with distanceCheckMode := DistanceCheckMode.DO_NOT_CHECK_DISTANCE },
      if explicitErrorCorrectionMode = true ∧
          ¬(ec.distanceCheckMode = DistanceCheckMode.DO_NOT_CHECK_DISTANCE) then
        some (fallbackModeName ec.mode)
      else
        none)
  else
    (ec, none)

/-- What main does with the outcome of pack, main.cpp lines 1317 to 1324
(tight packing) and 1363 to 1370 (grid packing): a zero outcome proceeds to
bitmap generation and the exporters, a negative outcome aborts with the
generic packing-failure message, and a positive outcome k aborts after
reporting k unplaced glyphs out of the total glyph count. -/
inductive PackAction where
  | abortPackFailure : PackAction
  | abortUnplaced : Nat → Nat → PackAction
  | proceed : PackAction
deriving DecidableEq

/-- Dispatch on the pack outcome as main.cpp does it in both packing styles. -/
def handlePackResult (remaining : Int) (total : Nat) : PackAction :=
  if remaining = 0 then PackAction.proceed
  else if remaining < 0 then PackAction.abortPackFailure
  else PackAction.abortUnplaced remaining.toNat total

/-- Exit status 1 is produced by both abort branches; the proceed branch
continues the program. -/
def packActionExitsWithOne : PackAction → Bool
  | PackAction.proceed => false
  | PackAction.abortPackFailure => true
  | PackAction.abortUnplaced _ _ => true

/-- Bitmap generation and the exporters run only in the proceed branch. -/
def packActionRunsGeneration : PackAction → Bool
  | PackAction.proceed => true
  | PackAction.abortPackFailure => false
  | PackAction.abortUnplaced _ _ => false

/-- The Configuration writes of main.cpp lines 1325 to 1329, performed
after a successful tight pack: the atlas dimensions, the em size and the
pixel range are copied from the packer into the configuration. -/
def applyPackResultsTight (c : Configuration) (packWidth packHeight : Int)
    (packScale : ℚ) (packRange : DistRange) : Configuration :=
  { c with
    width := packWidth
    height := packHeight
    emSize := packScale
    pxRange := packRange }

/-- The Configuration writes of main.cpp lines 1373 to 1380, performed
after a successful grid pack: the atlas dimensions, the em size, the pixel
range, the grid cell dimensions and the column and row counts are copied
from the packer into the configuration. -/
def applyPackResultsGrid (c : Configuration) (packWidth packHeight : Int)
    (packScale : ℚ) (packRange : DistRange)
    (cellWidth cellHeight cols rows : Int) : Configuration :=
  { c with
    width := packWidth
    height := packHeight
    emSize := packScale
    pxRange := packRange
    grid := { c.grid with
      cellWidth := cellWidth
      cellHeight := cellHeight
      cols := cols
      rows := rows } }

/-- A concrete Configuration as assembled by a default msdf run before
packing begins: zero-initialized dimensions and em size, the default
coloring, thresholds and generator attributes of main.cpp lines 428 to 467. -/
def exampleConfig : Configuration :=
  { imageType := ImageType.MSDF
    imageFormat := ImageFormat.PNG
    yDirection := YDirection.BOTTOM_UP
    width := 0
    height := 0
    emSize := 0
    pxRange := DistRange.symmetric 0
    angleThreshold := 3
    miterLimit := 1
    pxAlignOriginX := false
    pxAlignOriginY := true
    grid := { cellWidth := 0, cellHeight := 0, cols := 0, rows := 0,
              fixedOriginX := false, fixedOriginY := true }
    edgeColoring := EdgeColoringFunction.edgeColoringInkTrap
    expensiveColoring := false
    coloringSeed := 0
    generatorAttributes :=
      { overlapSupport := true
        scanlinePass := false
        errorCorrection :=
          { mode := ECMode.EDGE_PRIORITY
            distanceCheckMode := DistanceCheckMode.CHECK_DISTANCE_AT_EDGE
            minDeviationRatio := 1
            minImproveRatio := 1 } }
    preprocessGeometry := true
    kerning := true
    threadCount := 0 }

/- Helper lemmas shared by the claim theorems. -/

/-- The layered 64-bit reductions of glyphSeed collapse to one final
reduction modulo 2 ^ 64. -/
theorem glyphSeed_spec (S i : Nat) :
    glyphSeed S i = ((LCG_MULTIPLIER * (S ^^^ i) + LCG_INCREMENT) *
      (if S = 0 then 0 else 1)) % 2 ^ 64 := by
  unfold glyphSeed u64
  exact ((Nat.mod_modEq _ (2 ^ 64)).mul_right _).trans
    (((Nat.mod_modEq (LCG_MULTIPLIER * (S ^^^ i)) (2 ^ 64)).add_right
      LCG_INCREMENT).mul_right _)

/-- For a nonzero global seed the sentinel factor is 1. -/
theorem glyphSeed_of_nonzero (S i : Nat) (hS : S ≠ 0) :
    glyphSeed S i = (LCG_MULTIPLIER * (S ^^^ i) + LCG_INCREMENT) % 2 ^ 64 := by
  rw [glyphSeed_spec]
  simp [hS]

/-- The LCG multiplier is odd, hence coprime to 2 ^ 64. -/
theorem lcg_multiplier_coprime : Nat.Coprime (2 ^ 64) LCG_MULTIPLIER :=
  Nat.Coprime.pow_left 64
    (Nat.coprime_two_left.mpr (Nat.odd_iff.mpr (by norm_num [LCG_MULTIPLIER])))

/-- The cheap-coloring seed list written as a map over glyph positions. -/
theorem cheapSeedsFrom_eq (n : Nat) :
    ∀ s : Nat, cheapSeedsFrom s n =
      (List.range n).map (fun k => s * LCG_MULTIPLIER ^ (k + 1) % 2 ^ 64) := by
  induction n with
  | zero =>
    intro s
    simp [cheapSeedsFrom]
  | succ n ih =>
    intro s
    rw [cheapSeedsFrom, List.range_succ_eq_map, List.map_cons, List.map_map, ih]
    have hf : (fun k => u64 (s * LCG_MULTIPLIER) * LCG_MULTIPLIER ^ (k + 1) % 2 ^ 64) =
        ((fun k => s * LCG_MULTIPLIER ^ (k + 1) % 2 ^ 64) ∘ Nat.succ) := by
      funext k
      show u64 (s * LCG_MULTIPLIER) * LCG_MULTIPLIER ^ (k + 1) % 2 ^ 64 =
        s * LCG_MULTIPLIER ^ (k + 1 + 1) % 2 ^ 64
      unfold u64
      calc (s * LCG_MULTIPLIER % 2 ^ 64) * LCG_MULTIPLIER ^ (k + 1) % 2 ^ 64
          = s * LCG_MULTIPLIER * LCG_MULTIPLIER ^ (k + 1) % 2 ^ 64 :=
            (Nat.mod_modEq (s * LCG_MULTIPLIER) (2 ^ 64)).mul_right _
        _ = s * LCG_MULTIPLIER ^ (k + 1 + 1) % 2 ^ 64 := by
            congr 1
            ring
    rw [hf]
    congr 1

/- Claim theorems. -/

/-- C1: for every glyph index i and every global coloring seed S, the
expensive-coloring per-glyph seed equals
(LCG_MULTIPLIER * (S xor i) + LCG_INCREMENT) * (1 if S is nonzero else 0)
reduced modulo 2 ^ 64, and for S = 0 every derived seed is exactly 0. -/
theorem expensive_seed_formula (S i : Nat) :
    glyphSeed S i = ((LCG_MULTIPLIER * (S ^^^ i) + LCG_INCREMENT) *
      (if S ≠ 0 then 1 else 0)) % 2 ^ 64 ∧ glyphSeed 0 i = 0 := by
  constructor
  · rw [glyphSeed_spec]
    by_cases h : S = 0 <;> simp [h]
  · simp [glyphSeed, u64]

/-- C5: for a nonzero global seed, distinct glyph indices receive distinct
expensive-coloring seeds: the affine map of the seed formula is injective
modulo 2 ^ 64 because the LCG multiplier is odd. -/
theorem expensive_seed_injective (S i j : Nat) (hS : S ≠ 0) (hS64 : S < 2 ^ 64)
    (hi : i < 2 ^ 64) (hj : j < 2 ^ 64) (hne : i ≠ j) :
    glyphSeed S i ≠ glyphSeed S j := by
  intro h
  rw [glyphSeed_of_nonzero S i hS, glyphSeed_of_nonzero S j hS] at h
  have hmod : LCG_MULTIPLIER * (S ^^^ i) + LCG_INCREMENT ≡
      LCG_MULTIPLIER * (S ^^^ j) + LCG_INCREMENT [MOD 2 ^ 64] := h
  have hmul := Nat.ModEq.add_right_cancel' LCG_INCREMENT hmod
  have hxor : S ^^^ i ≡ S ^^^ j [MOD 2 ^ 64] :=
    Nat.ModEq.cancel_left_of_coprime lcg_multiplier_coprime hmul
  have hxi : S ^^^ i < 2 ^ 64 := Nat.xor_lt_two_pow hS64 hi
  have hxj : S ^^^ j < 2 ^ 64 := Nat.xor_lt_two_pow hS64 hj
  have heq : S ^^^ i = S ^^^ j := by
    have hx := hxor
    unfold Nat.ModEq at hx
    rwa [Nat.mod_eq_of_lt hxi, Nat.mod_eq_of_lt hxj] at hx
  apply hne
  have h2 := congrArg (fun t => S ^^^ t) heq
  simpa [← Nat.xor_assoc, Nat.xor_self, Nat.zero_xor] using h2

/-- Witness for C5 at the concrete seed 1 and glyph indices 0 and 1. -/
theorem expensive_seed_injective_witness : glyphSeed 1 0 ≠ glyphSeed 1 1 :=
  expensive_seed_injective 1 0 1 (by decide) (by norm_num) (by norm_num)
    (by norm_num) (by decide)

/-- C6: in the cheap edge-coloring path the glyph at position k, in glyph
order, receives the seed S * LCG_MULTIPLIER ^ (k + 1) modulo 2 ^ 64, where
S is the global coloring seed: the single running seed is multiplied by
LCG_MULTIPLIER before each glyph of the sequential loop. -/
theorem cheap_seed_sequence (coloringSeed n : Nat) :
    cheapColoringSeeds coloringSeed n =
      (List.range n).map (fun k => coloringSeed * LCG_MULTIPLIER ^ (k + 1) % 2 ^ 64) :=
  cheapSeedsFrom_eq n coloringSeed

/-- C2: a nonzero pack outcome makes the program exit with status 1 before
bitmap generation and before any exporter runs; a negative outcome takes the
generic packing-failure abort, and a positive outcome k takes the abort that
reports k unplaced glyphs out of the total glyph count. -/
theorem pack_failure_aborts (remaining : Int) (total : Nat) (h : remaining ≠ 0) :
    packActionExitsWithOne (handlePackResult remaining total) = true ∧
    packActionRunsGeneration (handlePackResult remaining total) = false ∧
    (remaining < 0 → handlePackResult remaining total = PackAction.abortPackFailure) ∧
    (0 < remaining → handlePackResult remaining total =
      PackAction.abortUnplaced remaining.toNat total) := by
  have hcase : handlePackResult remaining total =
      (if remaining < 0 then PackAction.abortPackFailure
       else PackAction.abortUnplaced remaining.toNat total) := by
    unfold handlePackResult
    rw [if_neg h]
  by_cases hlt : remaining < 0
  · rw [hcase, if_pos hlt]
    exact ⟨rfl, rfl, fun _ => rfl, fun hpos => absurd hpos (by omega)⟩
  · rw [hcase, if_neg hlt]
    exact ⟨rfl, rfl, fun hneg => absurd hneg hlt, fun _ => rfl⟩

/-- Witness for C2 at the concrete positive pack outcome 5 with 7 glyphs. -/
theorem pack_failure_aborts_witness :
    packActionExitsWithOne (handlePackResult 5 7) = true ∧
    packActionRunsGeneration (handlePackResult 5 7) = false ∧
    ((5 : Int) < 0 → handlePackResult 5 7 = PackAction.abortPackFailure) ∧
    (0 < (5 : Int) → handlePackResult 5 7 =
      PackAction.abortUnplaced (Int.toNat 5) 7) :=
  pack_failure_aborts 5 7 (by decide)

/-- C3: for the hard-mask and soft-mask image types the configuration fixup
forces the range units to pixels and the resolved distance range to a width
of exactly 1 pixel, whatever range value and units the user supplied. -/
theorem mask_range_forced_one_pixel (rangeUnits : CliUnits) (rangeValue : DistRange) :
    (fixupRange ImageType.HARD_MASK rangeUnits rangeValue).1 = CliUnits.PIXELS ∧
    (fixupRange ImageType.HARD_MASK rangeUnits rangeValue).2.upper -
      (fixupRange ImageType.HARD_MASK rangeUnits rangeValue).2.lower = 1 ∧
    (fixupRange ImageType.SOFT_MASK rangeUnits rangeValue).1 = CliUnits.PIXELS ∧
    (fixupRange ImageType.SOFT_MASK rangeUnits rangeValue).2.upper -
      (fixupRange ImageType.SOFT_MASK rangeUnits rangeValue).2.lower = 1 := by
  refine ⟨?_, ?_, ?_, ?_⟩ <;>
    simp [fixupRange, DistRange.symmetric] <;> norm_num

/-- C4: when the scanline pass is enabled, the error-correction
distance-check mode is forced to DO_NOT_CHECK_DISTANCE while the
error-correction mode itself is preserved, and the downgrade warning naming
the fallback mode is printed exactly when the user selected an
error-correction mode explicitly and its distance-check mode was not already
DO_NOT_CHECK_DISTANCE. -/
theorem scanline_forces_distance_check_off (explicitErrorCorrectionMode : Bool)
    (ec : ErrorCorrectionConfig) :
    (scanlineFixup true explicitErrorCorrectionMode ec).1.distanceCheckMode =
      DistanceCheckMode.DO_NOT_CHECK_DISTANCE ∧
    (scanlineFixup true explicitErrorCorrectionMode ec).1.mode = ec.mode ∧
    ((scanlineFixup true explicitErrorCorrectionMode ec).2 =
        some (fallbackModeName ec.mode) ↔
      (explicitErrorCorrectionMode = true ∧
        ec.distanceCheckMode ≠ DistanceCheckMode.DO_NOT_CHECK_DISTANCE)) := by
  refine ⟨by simp [scanlineFixup], by simp [scanlineFixup], ?_⟩
  by_cases hc : explicitErrorCorrectionMode = true ∧
      ¬(ec.distanceCheckMode = DistanceCheckMode.DO_NOT_CHECK_DISTANCE)
  · simp [scanlineFixup, hc]
  · simp only [scanlineFixup, if_pos rfl, if_neg hc]
    simpa using hc

/-- C7: when neither fixed atlas dimensions nor fixed grid cell dimensions
nor any positive em size are given, the minimum em size falls back to
DEFAULT_SIZE with a printed notice, and the fallback happens in no other
situation. -/
theorem default_min_em_size (emSize minEmSize : ℚ)
    (fixedWidth fixedHeight fixedCellWidth fixedCellHeight : Int)
    (he : 0 ≤ emSize) (hm : 0 ≤ minEmSize) :
    (resolveMinEmSize emSize minEmSize fixedWidth fixedHeight
        fixedCellWidth fixedCellHeight = (DEFAULT_SIZE, true) ↔
      (¬(0 < fixedWidth ∧ 0 < fixedHeight) ∧
        ¬(0 < fixedCellWidth ∧ 0 < fixedCellHeight) ∧
        emSize = 0 ∧ minEmSize = 0)) := by
  have hiff : (¬(0 < if minEmSize < emSize then emSize else minEmSize)) ↔
      (emSize = 0 ∧ minEmSize = 0) := by
    split
    case isTrue hlt =>
      constructor
      · intro h3
        exfalso
        have hz : emSize = 0 := le_antisymm (not_lt.mp h3) he
        rw [hz] at hlt
        exact absurd hlt (not_lt.mpr hm)
      · rintro ⟨rfl, rfl⟩
        exact absurd hlt (lt_irrefl 0)
    case isFalse hlt =>
      constructor
      · intro h3
        have hminz : minEmSize = 0 := le_antisymm (not_lt.mp h3) hm
        exact ⟨le_antisymm ((not_lt.mp hlt).trans hminz.le) he, hminz⟩
      · rintro ⟨rfl, rfl⟩
        exact lt_irrefl 0
  simp only [resolveMinEmSize]
  constructor
  · intro hres
    by_cases hcond : ¬(0 < fixedWidth ∧ 0 < fixedHeight) ∧
        ¬(0 < fixedCellWidth ∧ 0 < fixedCellHeight) ∧
        ¬(0 < if minEmSize < emSize then emSize else minEmSize)
    · exact ⟨hcond.1, hcond.2.1, (hiff.mp hcond.2.2).1, (hiff.mp hcond.2.2).2⟩
    · rw [if_neg hcond] at hres
      exact absurd (congrArg Prod.snd hres) (by simp)
  · rintro ⟨h1, h2, h3, h4⟩
    rw [if_pos ⟨h1, h2, hiff.mpr ⟨h3, h4⟩⟩]

/-- Witness for C7: nothing given at all resolves to the default size 32. -/
theorem default_min_em_size_witness :
    resolveMinEmSize 0 0 (-1) (-1) (-1) (-1) = (DEFAULT_SIZE, true) :=
  (default_min_em_size 0 0 (-1) (-1) (-1) (-1) le_rfl le_rfl).mpr
    (by norm_num)

/-- C8: a non-positive configured thread count resolves to the maximum of
the detected hardware concurrency and 1, and a positive configured thread
count is used unchanged. -/
theorem thread_count_resolution (threadCount : Int) (hardwareConcurrency : Nat) :
    (threadCount ≤ 0 → resolveThreadCount threadCount hardwareConcurrency =
      max (hardwareConcurrency : Int) 1) ∧
    (0 < threadCount → resolveThreadCount threadCount hardwareConcurrency =
      threadCount) := by
  constructor
  · intro h
    rw [resolveThreadCount, if_pos h]
  · intro h
    rw [resolveThreadCount, if_neg (not_le.mpr h)]

/-- C9 counterexample: the Configuration does change between the invocation
of pack and the completion of generation: at the concrete pre-pack
configuration of a default msdf run, copying the packer results of a
36 x 36 atlas at scale 32 into the configuration yields a different
Configuration value, because the width field goes from 0 to 36. -/
theorem config_mutated_after_pack :
    applyPackResultsTight exampleConfig 36 36 32 (DistRange.symmetric 2) ≠
      exampleConfig := by
  intro h
  have hw := congrArg Configuration.width h
  have h36 : (36 : Int) = 0 := hw
  exact absurd h36 (by decide)

/-- C9 amended: the post-pack Configuration writes touch exactly the packer
result fields: width, height, emSize and pxRange in the tight path, plus the
grid cell dimensions and column and row counts in the grid path; every other
Configuration field keeps the value it had when pack was invoked, and no
further write to the Configuration happens during generation. -/
theorem post_pack_update_scope (c : Configuration) (w h : Int) (s : ℚ)
    (r : DistRange) (cw ch cols rows : Int) :
    ((applyPackResultsTight c w h s r).imageType = c.imageType ∧
     (applyPackResultsTight c w h s r).imageFormat = c.imageFormat ∧
     (applyPackResultsTight c w h s r).yDirection = c.yDirection ∧
     (applyPackResultsTight c w h s r).angleThreshold = c.angleThreshold ∧
     (applyPackResultsTight c w h s r).miterLimit = c.miterLimit ∧
     (applyPackResultsTight c w h s r).pxAlignOriginX = c.pxAlignOriginX ∧
     (applyPackResultsTight c w h s r).pxAlignOriginY = c.pxAlignOriginY ∧
     (applyPackResultsTight c w h s r).grid = c.grid ∧
     (applyPackResultsTight c w h s r).edgeColoring = c.edgeColoring ∧
     (applyPackResultsTight c w h s r).expensiveColoring = c.expensiveColoring ∧
     (applyPackResultsTight c w h s r).coloringSeed = c.coloringSeed ∧
     (applyPackResultsTight c w h s r).generatorAttributes = c.generatorAttributes ∧
     (applyPackResultsTight c w h s r).preprocessGeometry = c.preprocessGeometry ∧
     (applyPackResultsTight c w h s r).kerning = c.kerning ∧
     (applyPackResultsTight c w h s r).threadCount = c.threadCount ∧
     (applyPackResultsTight c w h s r).width = w ∧
     (applyPackResultsTight c w h s r).height = h ∧
     (applyPackResultsTight c w h s r).emSize = s ∧
     (applyPackResultsTight c w h s r).pxRange = r) ∧
    ((applyPackResultsGrid c w h s r cw ch cols rows).imageType = c.imageType ∧
     (applyPackResultsGrid c w h s r cw ch cols rows).imageFormat = c.imageFormat ∧
     (applyPackResultsGrid c w h s r cw ch cols rows).yDirection = c.yDirection ∧
     (applyPackResultsGrid c w h s r cw ch cols rows).angleThreshold = c.angleThreshold ∧
     (applyPackResultsGrid c w h s r cw ch cols rows).miterLimit = c.miterLimit ∧
     (applyPackResultsGrid c w h s r cw ch cols rows).pxAlignOriginX = c.pxAlignOriginX ∧
     (applyPackResultsGrid c w h s r cw ch cols rows).pxAlignOriginY = c.pxAlignOriginY ∧
     (applyPackResultsGrid c w h s r cw ch cols rows).edgeColoring = c.edgeColoring ∧
     (applyPackResultsGrid c w h s r cw ch cols rows).expensiveColoring = c.expensiveColoring ∧
     (applyPackResultsGrid c w h s r cw ch cols rows).coloringSeed = c.coloringSeed ∧
     (applyPackResultsGrid c w h s r cw ch cols rows).generatorAttributes = c.generatorAttributes ∧
     (applyPackResultsGrid c w h s r cw ch cols rows).preprocessGeometry = c.preprocessGeometry ∧
     (applyPackResultsGrid c w h s r cw ch cols rows).kerning = c.kerning ∧
     (applyPackResultsGrid c w h s r cw ch cols rows).threadCount = c.threadCount ∧
     (applyPackResultsGrid c w h s r cw ch cols rows).grid.fixedOriginX = c.grid.fixedOriginX ∧
     (applyPackResultsGrid c w h s r cw ch cols rows).grid.fixedOriginY = c.grid.fixedOriginY ∧
     (applyPackResultsGrid c w h s r cw ch cols rows).width = w ∧
     (applyPackResultsGrid c w h s r cw ch cols rows).height = h ∧
     (applyPackResultsGrid c w h s r cw ch cols rows).emSize = s ∧
     (applyPackResultsGrid c w h s r cw ch cols rows).pxRange = r ∧
     (applyPackResultsGrid c w h s r cw ch cols rows).grid.cellWidth = cw ∧
     (applyPackResultsGrid c w h s r cw ch cols rows).grid.cellHeight = ch ∧
     (applyPackResultsGrid c w h s r cw ch cols rows).grid.cols = cols ∧
     (applyPackResultsGrid c w h s r cw ch cols rows).grid.rows = rows) := by
  refine ⟨?_, ?_⟩ <;> simp [applyPackResultsTight, applyPackResultsGrid]

/-- C10: the packing spacing handed to the atlas packer is the sentinel -1
for the hard-mask, soft-mask and psdf image types whatever spacing the user
supplied, and for the sdf, msdf and mtsdf image types it is the user value
when positive and 0 otherwise. -/
theorem spacing_resolution (packingSpacing : Int) :
    resolveSpacing ImageType.HARD_MASK packingSpacing = -1 ∧
    resolveSpacing ImageType.SOFT_MASK packingSpacing = -1 ∧
    resolveSpacing ImageType.PSDF packingSpacing = -1 ∧
    resolveSpacing ImageType.SDF packingSpacing =
      (if 0 < packingSpacing then packingSpacing else 0) ∧
    resolveSpacing ImageType.MSDF packingSpacing =
      (if 0 < packingSpacing then packingSpacing else 0) ∧
    resolveSpacing ImageType.MTSDF packingSpacing =
      (if 0 < packingSpacing then packingSpacing else 0) := by
  refine ⟨?_, ?_, ?_, ?_, ?_, ?_⟩ <;> simp [resolveSpacing]

end MsdfAtlasGen
